/-
  Verification of the sprout-app compiler core (rust/sprout_compiler) against
  its natural-language specification.

  The Rust sources are shallowly embedded: pure functions become Lean
  functions, `&mut self` methods become explicit state passing
  (`WasmRuntime → ... → WasmRuntime × Except RunErr α`), fallible code
  returns `Except`, and machine integers are modelled as `Int`/`Nat` with
  explicit range checks where the source checks them.  Rust byte lengths
  (`str::len`) are modelled with `String.utf8ByteSize`.  A Rust panic
  (an out-of-bounds slice such as `s[1..0]`) is modelled explicitly as a
  distinguished result constructor, never as a Lean error.
-/
import Mathlib

namespace Sprout

/-! ## String helpers mirroring the Rust standard library -/

/-- Rust `str::len` (UTF-8 byte length). -/
def strLen (s : String) : Nat := s.utf8ByteSize

/-- Is `pat` a contiguous sublist of `s`? (Bool-valued infix test.) -/
def listIsInfixOf (pat s : List Char) : Bool :=
  match s with
  | [] => pat.isEmpty
  | _ :: rest => List.isPrefixOf pat s || listIsInfixOf pat rest

/-- Rust `str::contains(pat)`: substring containment. -/
def containsSubstr (s pat : String) : Bool := listIsInfixOf pat.toList s.toList

/-- The double-quote character, `"` (written via its code point). -/
def quoteChar : Char := Char.ofNat 34

/-- Rust `s.starts_with('"')`. -/
def startsWithQuote (s : String) : Bool :=
  match s.toList with
  | [] => false
  | c :: _ => c = quoteChar

/-- Rust `s.ends_with('"')`. -/
def endsWithQuote (s : String) : Bool :=
  match s.toList.getLast? with
  | none => false
  | some c => c = quoteChar

/-- Rust `&s[1..s.len()-1]` for a string of length ≥ 2 (drop the first and
last characters).  Callers must handle the length-1 case themselves: in Rust
that slice panics, which the embeddings model explicitly. -/
def sliceInner (s : String) : String := String.mk (s.toList.drop 1).dropLast

/-- Rust `i64::from_str`: optional sign, one or more ASCII digits, and the
value must fit in `i64`. -/
def parseI64 (s : String) : Option Int :=
  let cs := s.toList
  let (sign, digits) :=
    match cs with
    | c :: rest =>
      if c = Char.ofNat 45 then ((-1 : Int), rest)
      else if c = Char.ofNat 43 then ((1 : Int), rest)
      else ((1 : Int), cs)
    | [] => ((1 : Int), cs)
  if digits.isEmpty then none
  else if digits.all (fun c => c.isDigit) then
    let v : Int := sign * (digits.foldl (fun acc c => acc * 10 + (c.toNat - 48)) 0 : Nat)
    if -(2 ^ 63) ≤ v ∧ v ≤ 2 ^ 63 - 1 then some v else none
  else none

/-- Index (in characters) of the first occurrence of `pat` inside `s`,
mirroring Rust `str::find` (byte offsets and character offsets agree for the
slicing done at a match boundary). -/
def findSubstrIdx (s pat : String) : Option Nat :=
  (List.range (s.toList.length + 1)).find?
    (fun i => List.isPrefixOf pat.toList (s.toList.drop i))

/-- Rust `str::starts_with(prefix)`. -/
def startsWithStr (s pre : String) : Bool := List.isPrefixOf pre.toList s.toList

/-- Rust `str::ends_with(suffix)`. -/
def endsWithStr (s suf : String) : Bool :=
  List.isPrefixOf suf.toList.reverse s.toList.reverse

/-- Rust `str::to_lowercase` (ASCII case mapping; every string the denylist
scans it against is ASCII). -/
def toLowerStr (s : String) : String := String.mk (s.toList.map Char.toLower)

/-- Rust `str::trim` (leading and trailing whitespace stripped). -/
def trimStr (s : String) : String :=
  String.mk (((s.toList.dropWhile Char.isWhitespace).reverse.dropWhile
    Char.isWhitespace).reverse)

/-- Rust `str::trim_start`. -/
def trimLeftStr (s : String) : String :=
  String.mk (s.toList.dropWhile Char.isWhitespace)

/-- Leftmost non-overlapping split on a (non-empty) separator, mirroring
Rust `str::split(sep)`.  The gas parameter only drives the recursion and
starts above the string length, so it never runs out. -/
def splitOnGo (sep : String) : Nat → List Char → List String
  | 0, cs => [String.mk cs]
  | gas + 1, cs =>
    match (List.range (cs.length + 1)).find?
        (fun i => List.isPrefixOf sep.toList (cs.drop i)) with
    | some i =>
      String.mk (cs.take i) :: splitOnGo sep gas (cs.drop (i + sep.toList.length))
    | none => [String.mk cs]

/-- Rust `str::split(sep)` for a non-empty literal separator. -/
def splitOnStr (s sep : String) : List String :=
  if sep = "" then [s] else splitOnGo sep (s.toList.length + 1) s.toList

/-- Concatenation with separators, used to realise `str::replace`. -/
def joinWith (sep : String) : List String → String
  | [] => ""
  | [x] => x
  | x :: rest => x ++ sep ++ joinWith sep rest

/-- Rust `str::replace(from, to)`: replace every leftmost non-overlapping
occurrence. -/
def replaceStr (s patFrom patTo : String) : String :=
  joinWith patTo (splitOnStr s patFrom)

/-- Rust `str::split_whitespace`: split on whitespace runs, dropping empty
pieces. -/
def splitWhitespaceAux : List Char → List Char → List String
  | [], acc => if acc.isEmpty then [] else [String.mk acc.reverse]
  | c :: rest, acc =>
    if c.isWhitespace then
      if acc.isEmpty then splitWhitespaceAux rest []
      else String.mk acc.reverse :: splitWhitespaceAux rest []
    else splitWhitespaceAux rest (c :: acc)

/-- Rust `str::split_whitespace`. -/
def splitWhitespaceStr (s : String) : List String := splitWhitespaceAux s.toList []

/-! ## Flat AST (`src/ast.rs`) -/

/-- Rust `ast.rs`: `enum ValueType`.  `HashMap<String, ValueType>` is modelled as
an association list. -/
inductive ValueType : Type where
  | string (s : String)
  | number (n : Int)
  | boolean (b : Bool)
  | array (xs : List ValueType)
  | object (entries : List (String × ValueType))
deriving Repr

/-- Rust `ast.rs`: `struct StateVariable`. -/
structure StateVariable : Type where
  name : String
  value : ValueType
deriving Repr

/-- Rust `ast.rs`: `enum Action`. -/
inductive Action : Type where
  | navigation (target : String)
  | updateState (varName : String) (value : String)
  | callFunction (function : String) (args : List String)
  | ite (condition : String) (thenA : Action) (elseA : Option Action)
  | loop (varName : String) (range : String) (body : List Action)
deriving Repr

/-- Rust `ast.rs`: `enum UiElement`. -/
inductive UiElement : Type where
  | label (text : String)
  | button (labelTxt : String) (action : Action)
  | textField (placeholder : String) (bindTo : String)
  | image (source : String)
  | list (items : List String) (bindTo : String)
deriving Repr

/-- Rust `ast.rs`: `struct Screen`. -/
structure Screen : Type where
  name : String
  state : List StateVariable
  ui : List UiElement
deriving Repr

/-- Rust `ast.rs`: `struct App`. -/
structure App : Type where
  name : String
  start_screen : String
  screens : List Screen
  state : List StateVariable
deriving Repr

/-- Rust `ast.rs`: `impl StateVariable { fn validate }`. -/
def StateVariable.validate (v : StateVariable) : Except String Unit :=
  if strLen v.name > 50 then
    .error ("State variable name exceeds maximum length of " ++ toString 50)
  else if containsSubstr v.name "eval" || containsSubstr v.name "exec" then
    .error "State variable name contains dangerous patterns"
  else
    match v.value with
    | .string s =>
      if strLen s > 1000 then
        .error ("String value too long. Maximum is " ++ toString 1000)
      else if containsSubstr s "eval(" || containsSubstr s "exec(" then
        .error "String value contains dangerous function calls"
      else .ok ()
    | .array arr =>
      if arr.length > 100 then .error "Array too large. Maximum is 100 elements"
      else .ok ()
    | .object obj =>
      if obj.length > 50 then .error "Object too large. Maximum is 50 properties"
      else .ok ()
    | _ => .ok ()

/-- Rust `ast.rs`: `impl Action { fn validate }`. -/
def Action.validate : Action → Except String Unit
  | .navigation target =>
    if strLen target > 50 then .error "Navigation target too long" else .ok ()
  | .updateState varName value =>
    if strLen varName > 50 then .error "State variable name too long"
    else if strLen value > 500 then .error "State value too long"
    else .ok ()
  | .callFunction function args =>
    if containsSubstr function "eval" || containsSubstr function "exec" then
      .error "Dangerous function call detected"
    else if strLen function > 50 then .error "Function name too long"
    else if args.length > 10 then .error "Too many arguments. Maximum is 10"
    else if args.any (fun a => strLen a > 200) then .error "Argument too long"
    else .ok ()
  | .ite condition thenA elseA =>
    if strLen condition > 200 then .error "Condition too long"
    else if containsSubstr condition "eval" || containsSubstr condition "exec" then
      .error "Condition contains dangerous patterns"
    else
      match thenA.validate with
      | .error e => .error e
      | .ok () =>
        match elseA with
        | some e => e.validate
        | none => .ok ()
  | .loop varName range body =>
    if strLen varName > 50 then .error "Loop variable name too long"
    else if strLen range > 100 then .error "Loop range too long"
    else if body.length > 100 then .error "Loop body too large. Maximum is 100 actions"
    else validateList body
where
  /-- The `for action in body { action.validate()?; }` loop. -/
  validateList : List Action → Except String Unit
    | [] => .ok ()
    | a :: rest =>
      match a.validate with
      | .error e => .error e
      | .ok () => validateList rest

/-- Rust `ast.rs`: `impl UiElement { fn validate }`. -/
def UiElement.validate : UiElement → Except String Unit
  | .label text =>
    if strLen text > 1000 then .error "Label text too long. Maximum is 1000 characters"
    else if containsSubstr text "<script>" || containsSubstr text "javascript:" then
      .error "Label text contains dangerous patterns"
    else .ok ()
  | .button labelTxt action =>
    if strLen labelTxt > 50 then .error "Button label too long. Maximum is 50 characters"
    else action.validate
  | .textField placeholder bindTo =>
    if strLen placeholder > 200 then .error "Placeholder too long"
    else if strLen bindTo > 50 then .error "Binding variable name too long"
    else .ok ()
  | .image source =>
    if strLen source > 500 then .error "Image source URL too long"
    else if startsWithStr source "http://" && !startsWithStr source "http://localhost" then
      .error "Insecure HTTP connection not allowed"
    else .ok ()
  | .list items bindTo =>
    if items.length > 100 then .error "List too large. Maximum is 100 items"
    else if strLen bindTo > 50 then .error "Binding variable name too long"
    else .ok ()

/-- Helper for the `for x in xs { x.validate()?; }` loops in `ast.rs`. -/
def validateEach {α : Type} (f : α → Except String Unit) : List α → Except String Unit
  | [] => .ok ()
  | a :: rest =>
    match f a with
    | .error e => .error e
    | .ok () => validateEach f rest

/-- Rust `ast.rs`: `impl Screen { fn validate }`. -/
def Screen.validate (s : Screen) : Except String Unit :=
  if strLen s.name > 50 then
    .error ("Screen name exceeds maximum length of " ++ toString 50)
  else if containsSubstr s.name "eval" || containsSubstr s.name "exec" then
    .error "Screen name contains dangerous patterns"
  else if s.state.length > 20 then
    .error ("Too many state variables in screen '" ++ s.name ++ "'. Maximum is " ++ toString 20)
  else
    match validateEach StateVariable.validate s.state with
    | .error e => .error e
    | .ok () =>
      if s.ui.length > 100 then
        .error ("Too many UI elements in screen '" ++ s.name ++ "'. Maximum is " ++ toString 100)
      else validateEach UiElement.validate s.ui

/-- Rust `ast.rs`: `impl App { fn validate }`. -/
def App.validate (a : App) : Except String Unit :=
  if strLen a.name > 100 then
    .error ("App name exceeds maximum length of " ++ toString 100)
  else if containsSubstr a.name "eval" || containsSubstr a.name "exec" then
    .error "App name contains dangerous patterns"
  else if a.screens.length > 50 then
    .error ("Too many screens. Maximum is " ++ toString 50)
  else
    match validateEach Screen.validate a.screens with
    | .error e => .error e
    | .ok () =>
      let totalState := a.state.length + (a.screens.map (fun s => s.state.length)).sum
      if totalState > 200 then
        .error ("Too many state variables. Maximum is " ++ toString 200)
      else .ok ()

/-! ## Runtime (`src/runtime.rs`) -/

/-- Failure of a runtime step: `err` models a returned `anyhow::Error`;
`panicked` models a Rust panic (stack unwinding), which this code never
catches. -/
inductive RunErr : Type where
  | err (msg : String)
  | panicked (msg : String)
deriving Repr

/-- Rust `runtime.rs`: `struct RuntimeOptions`.  `max_execution_time` is a
`Duration`, modelled in milliseconds. -/
structure RuntimeOptions : Type where
  maxExecutionTime : Nat
  maxMemory : Nat
  enableDebugging : Bool
deriving Repr

/-- Rust `runtime.rs`: `impl Default for RuntimeOptions` (10 s, 1 MiB). -/
def RuntimeOptions.default : RuntimeOptions :=
  { maxExecutionTime := 10000, maxMemory := 1024 * 1024, enableDebugging := false }

/-- Rust `runtime.rs`: `enum ExecutionEvent`. -/
inductive ExecutionEvent : Type where
  | screenLoaded (name : String)
  | stateUpdated (name : String) (value : ValueType)
  | actionExecuted (desc : String)
  | error (msg : String)
deriving Repr

/-- Rust `runtime.rs`: `struct WasmRuntime`.  The `HashMap<String, ValueType>`
state store is an association list; `execution_start : Instant` is replaced
by the elapsed-time parameter of `execute` (wall-clock time is external
input). -/
structure WasmRuntime : Type where
  state : List (String × ValueType)
  options : RuntimeOptions
  memoryUsage : Nat
  executionLog : List ExecutionEvent
deriving Repr

/-- Lookup in the association-list model of `HashMap::get`. -/
def lookupAssoc (m : List (String × ValueType)) (k : String) : Option ValueType :=
  match m with
  | [] => none
  | (k2, v2) :: rest => if k2 = k then some v2 else lookupAssoc rest k

/-- Insert-or-replace, the association-list model of `HashMap::insert`. -/
def insertAssoc (m : List (String × ValueType)) (k : String) (v : ValueType) :
    List (String × ValueType) :=
  match m with
  | [] => [(k, v)]
  | (k2, v2) :: rest => if k2 = k then (k, v) :: rest else (k2, v2) :: insertAssoc rest k v

/-- Rust `runtime.rs`: `fn log_event` (event log hard-capped at 1000 entries). -/
def logEvent (rt : WasmRuntime) (e : ExecutionEvent) : WasmRuntime :=
  if rt.executionLog.length < 1000 then
    { rt with executionLog := rt.executionLog ++ [e] }
  else rt

/-- Rust `runtime.rs`: `fn track_memory_usage` — adds to the estimate and, when
over budget, only logs an error event. -/
def trackMemoryUsage (rt : WasmRuntime) (bytes : Nat) : WasmRuntime :=
  let rt2 : WasmRuntime := { rt with memoryUsage := rt.memoryUsage + bytes }
  if rt2.memoryUsage > rt2.options.maxMemory then
    logEvent rt2 (.error "Memory limit exceeded")
  else rt2

/-- Tail of `runtime.rs: fn update_state` (its lines 276–279): the state-map
insert followed by the `StateUpdated` log entry, reached only after every
check has passed. -/
def commitState (rt : WasmRuntime) (name : String) (value : ValueType) :
    WasmRuntime × Except RunErr Unit :=
  let rt2 : WasmRuntime := { rt with state := insertAssoc rt.state name value }
  (logEvent rt2 (.stateUpdated name value), .ok ())

/-- Rust `runtime.rs`: `fn update_state`. -/
def updateState (rt : WasmRuntime) (name : String) (value : ValueType) :
    WasmRuntime × Except RunErr Unit :=
  if strLen name > 50 then (rt, .error (.err "State variable name too long"))
  else if containsSubstr name "eval" || containsSubstr name "exec" then
    (rt, .error (.err ("Dangerous variable name: " ++ name)))
  else
    match value with
    | .string s =>
      if strLen s > 1000 then (rt, .error (.err "String value too long"))
      else commitState (trackMemoryUsage rt (strLen s)) name value
    | .array arr =>
      if arr.length > 100 then (rt, .error (.err "Array too large"))
      else commitState (trackMemoryUsage rt (arr.length * 8)) name value
    | .object obj =>
      if obj.length > 50 then (rt, .error (.err "Object too large"))
      else commitState rt name value
    | _ => commitState rt name value

/-- Rust `runtime.rs`: `fn evaluate_expression` (reads the state store only). -/
def evaluateExpression (st : List (String × ValueType)) (expression : String) :
    Except RunErr ValueType :=
  if containsSubstr expression "eval" || containsSubstr expression "exec" then
    .error (.err "Dangerous expression detected")
  else
    let trimmed := trimStr expression
    if trimmed = "true" then .ok (.boolean true)
    else if trimmed = "false" then .ok (.boolean false)
    else
      match parseI64 trimmed with
      | some num => .ok (.number num)
      | none =>
        if startsWithQuote trimmed && endsWithQuote trimmed then
          -- Rust slices `&trimmed[1..trimmed.len()-1]`, which panics when
          -- the string is the single character `"`.
          if trimmed.length < 2 then
            .error (.panicked "slice index starts at 1 but ends at 0")
          else .ok (.string (sliceInner trimmed))
        else
          match lookupAssoc st trimmed with
          | some value => .ok value
          | none => .ok (.string trimmed)

/-- Rust `runtime.rs`: `fn evaluate_condition`.  It takes `&self` but never reads
the state store, so it is a function of the condition string alone. -/
def evaluateCondition (condition : String) : Except RunErr Bool :=
  if containsSubstr condition "eval" || containsSubstr condition "exec" then
    .error (.err "Dangerous condition detected")
  else
    let trimmed := trimStr condition
    if trimmed = "true" then .ok true
    else if trimmed = "false" then .ok false
    else
      match findSubstrIdx trimmed "==" with
      | some pos =>
        let left := trimStr (String.mk (trimmed.toList.take pos))
        let right := trimStr (String.mk (trimmed.toList.drop (pos + 2)))
        match parseI64 left, parseI64 right with
        | some lv, some rv => .ok (lv == rv)
        | _, _ =>
          if startsWithQuote left && endsWithQuote left &&
              startsWithQuote right && endsWithQuote right then
            -- Rust slices `&left[1..left.len()-1]` (and similarly `right`),
            -- which panics when the operand is the single character `"`.
            if left.length < 2 then
              .error (.panicked "slice index starts at 1 but ends at 0")
            else if right.length < 2 then
              .error (.panicked "slice index starts at 1 but ends at 0")
            else .ok (sliceInner left == sliceInner right)
          else .ok false
      | none => .ok false

/-- The `for arg in args { self.evaluate_expression(arg)?; }` loop of the
`CallFunction` arm. -/
def evalArgsLoop (st : List (String × ValueType)) : List String → Except RunErr Unit
  | [] => .ok ()
  | arg :: rest =>
    match evaluateExpression st arg with
    | .error e => .error e
    | .ok _ => evalArgsLoop st rest

/-- Modelled: `execute_action` logs `action.to_string()`, whose `Display`
implementation is not under `src/`; the rendered text is irrelevant to every
claim, so a simple constructor tag is used. -/
def actionDescr : Action → String
  | .navigation target => "Navigation(" ++ target ++ ")"
  | .updateState varName _ => "UpdateState(" ++ varName ++ ")"
  | .callFunction function _ => "CallFunction(" ++ function ++ ")"
  | .ite _ _ _ => "If"
  | .loop varName _ _ => "Loop(" ++ varName ++ ")"

mutual

/-- Rust `runtime.rs`: `fn execute_action`. -/
def executeAction (rtIn : WasmRuntime) (a : Action) : WasmRuntime × Except RunErr Unit :=
  let rt := logEvent rtIn (.actionExecuted (actionDescr a))
  match a with
  | .navigation target =>
    if strLen target > 50 then (rt, .error (.err "Navigation target too long"))
    else (rt, .ok ())
  | .updateState varName value =>
    match evaluateExpression rt.state value with
    | .error e => (rt, .error e)
    | .ok evaluated => updateState rt varName evaluated
  | .callFunction function args =>
    if containsSubstr function "eval" || containsSubstr function "exec" then
      (rt, .error (.err ("Dangerous function call detected: " ++ function)))
    else if args.length > 10 then
      (rt, .error (.err ("Too many arguments: " ++ toString args.length)))
    else
      match evalArgsLoop rt.state args with
      | .error e => (rt, .error e)
      | .ok () => (rt, .ok ())
  | .ite condition thenA elseA =>
    match evaluateCondition condition with
    | .error e => (rt, .error e)
    | .ok conditionResult =>
      if conditionResult then executeAction rt thenA
      else
        match elseA with
        | some elseAct => executeAction rt elseAct
        | none => (rt, .ok ())
  | .loop varName range body =>
    if body.length > 100 then (rt, .error (.err "Loop body too large"))
    else
      match (splitOnStr range "..").filterMap (fun s => parseI64 (trimStr s)) with
      | [v1, v2] =>
        executeLoopIter rt varName (min v1 v2)
          ((min (max v1 v2 - min v1 v2 + 1) 100).toNat) body
      | _ => (rt, .error (.err "Invalid range format"))
termination_by (sizeOf a, 0)

/-- The `for action in body { self.execute_action(action)?; }` loop. -/
def executeActions (rt : WasmRuntime) (l : List Action) : WasmRuntime × Except RunErr Unit :=
  match l with
  | [] => (rt, .ok ())
  | a :: rest =>
    match executeAction rt a with
    | (rt2, .error e) => (rt2, .error e)
    | (rt2, .ok ()) => executeActions rt2 rest
termination_by (sizeOf l, 0)

/-- The `for i in start..start + max_iterations as i64` loop of the `Loop`
arm: `k` iterations remain, `i` is the current loop-variable value. -/
def executeLoopIter (rt : WasmRuntime) (varName : String) (i : Int) (k : Nat)
    (body : List Action) : WasmRuntime × Except RunErr Unit :=
  match k with
  | 0 => (rt, .ok ())
  | Nat.succ k2 =>
    match updateState rt varName (.number i) with
    | (rt2, .error e) => (rt2, .error e)
    | (rt2, .ok ()) =>
      match executeActions rt2 body with
      | (rt3, .error e) => (rt3, .error e)
      | (rt3, .ok ()) => executeLoopIter rt3 varName (i + 1) k2 body
termination_by (sizeOf body, k + 1)

end

/-- Rust `runtime.rs`: `fn execute_ui_element`. -/
def executeUiElement (rt : WasmRuntime) (ui : UiElement) : WasmRuntime × Except RunErr Unit :=
  match ui with
  | .label text =>
    match evaluateExpression rt.state text with
    | .error e => (rt, .error e)
    | .ok _ => (trackMemoryUsage rt (strLen text), .ok ())
  | .button labelTxt action =>
    match action.validate with
    | .error e => (rt, .error (.err e))
    | .ok () =>
      match executeAction rt action with
      | (rt2, .error e) => (rt2, .error e)
      | (rt2, .ok ()) => (trackMemoryUsage rt2 (strLen labelTxt + 100), .ok ())
  | .textField placeholder bindTo =>
    let rt2 := trackMemoryUsage rt (strLen placeholder)
    if (lookupAssoc rt2.state bindTo).isSome then (rt2, .ok ())
    else updateState rt2 bindTo (.string "")
  | .image source =>
    if startsWithStr source "http://" && !startsWithStr source "http://localhost" then
      (rt, .error (.err "Insecure HTTP connection not allowed"))
    else (trackMemoryUsage rt (strLen source + 1024), .ok ())
  | .list items bindTo =>
    let rt2 := items.foldl (fun acc item => trackMemoryUsage acc (strLen item)) rt
    if (lookupAssoc rt2.state bindTo).isSome then (rt2, .ok ())
    else updateState rt2 bindTo (.array [])

/-- The `for ui_element in &screen.ui { ... }` loop of `execute_screen`. -/
def executeUiElements (rt : WasmRuntime) : List UiElement → WasmRuntime × Except RunErr Unit
  | [] => (rt, .ok ())
  | ui :: rest =>
    match executeUiElement rt ui with
    | (rt2, .error e) => (rt2, .error e)
    | (rt2, .ok ()) => executeUiElements rt2 rest

/-- The state-seeding loops of `execute` / `execute_screen`:
`for state_var in vars { self.update_state(&v.name, v.value.clone())?; }`. -/
def initStateVars (rt : WasmRuntime) : List StateVariable → WasmRuntime × Except RunErr Unit
  | [] => (rt, .ok ())
  | v :: rest =>
    match updateState rt v.name v.value with
    | (rt2, .error e) => (rt2, .error e)
    | (rt2, .ok ()) => initStateVars rt2 rest

/-- Rust `runtime.rs`: `fn execute_screen`. -/
def executeScreen (rt0 : WasmRuntime) (screen : Screen) : WasmRuntime × Except RunErr Unit :=
  let rt := logEvent rt0 (.screenLoaded screen.name)
  match initStateVars rt screen.state with
  | (rt2, .error e) => (rt2, .error e)
  | (rt2, .ok ()) => executeUiElements rt2 screen.ui

/-- Rust `runtime.rs`: `struct ExecutionResult`. -/
structure ExecutionResult : Type where
  success : Bool
  finalState : List (String × ValueType)
  executionTime : Nat
  memoryUsage : Nat
  events : List ExecutionEvent
deriving Repr

/-- Rust `runtime.rs`: `WasmRuntime::execute`.  Wall-clock time cannot be modelled
purely; `elapsedMs` is the elapsed time observed at the final budget check.
The error strings of the two wrapped validation failures keep the
`anyhow::Context` text. -/
def execute (rt0 : WasmRuntime) (app : App) (startScreen : String) (elapsedMs : Nat) :
    WasmRuntime × Except RunErr ExecutionResult :=
  match app.validate with
  | .error e =>
    ({ rt0 with memoryUsage := 0, executionLog := [] },
     .error (.err ("App validation failed: " ++ e)))
  | .ok () =>
    match initStateVars { rt0 with memoryUsage := 0, executionLog := [] } app.state with
    | (rt2, .error e) => (rt2, .error e)
    | (rt2, .ok ()) =>
      match app.screens.find? (fun s => s.name == startScreen) with
      | none => (rt2, .error (.err ("Start screen not found: " ++ startScreen)))
      | some screen =>
        match screen.validate with
        | .error e => (rt2, .error (.err ("Screen validation failed: " ++ e)))
        | .ok () =>
          match executeScreen rt2 screen with
          | (rt3, .error e) => (rt3, .error e)
          | (rt3, .ok ()) =>
            if elapsedMs > rt3.options.maxExecutionTime then
              (rt3, .error (.err "Execution timeout"))
            else if rt3.memoryUsage > rt3.options.maxMemory then
              (rt3, .error (.err ("Memory limit exceeded: " ++ toString rt3.memoryUsage)))
            else
              (rt3, .ok { success := true, finalState := rt3.state,
                          executionTime := elapsedMs, memoryUsage := rt3.memoryUsage,
                          events := rt3.executionLog })

/-! ## Compilation front end (`src/lib.rs`) -/

/-- Rust `lib.rs`: `enum SecurityLevel` (`Strict` is the serde default). -/
inductive SecurityLevel : Type where
  | strict
  | moderate
  | permissive
deriving Repr, DecidableEq

/-- Rust `lib.rs`: `enum RiskLevel`, ordered `Low < Medium < High < Critical`. -/
inductive RiskLevel : Type where
  | low
  | medium
  | high
  | critical
deriving Repr, DecidableEq

/-- Rank realising the `Low < Medium < High < Critical` order of §3. -/
def riskRank : RiskLevel → Nat
  | .low => 0
  | .medium => 1
  | .high => 2
  | .critical => 3

/-- Rust `lib.rs`: `enum SproutError`. -/
inductive SproutError : Type where
  | parse (msg : String)
  | compileError (msg : String)
  | security (msg : String)
  | runtime (msg : String)
  | ioError (msg : String)
deriving Repr, DecidableEq

/-- Rust `lib.rs`: `struct SecurityReport`.  The `HashSet` fields are modelled as
lists (at most one element is ever inserted by `validate_source_code`). -/
structure SecurityReport : Type where
  riskLevel : RiskLevel
  requiredPermissions : List String
  externalResources : List String
  navigationTargets : List String
  functionCalls : List String
  securityWarnings : List String
  codeQualityScore : Nat
deriving Repr, DecidableEq

/-- Rust `lib.rs`: `SecurityReport::default()`. -/
def SecurityReport.default : SecurityReport :=
  { riskLevel := .low, requiredPermissions := [], externalResources := [],
    navigationTargets := [], functionCalls := [], securityWarnings := [],
    codeQualityScore := 0 }

/-- Rust `lib.rs`: the `(dangerous_patterns, blocked_urls)` table of
`validate_source_code`, first components. -/
def dangerousPatterns : SecurityLevel → List (String × String)
  | .strict =>
    [("import", "Import statements not allowed in strict mode"),
     ("require", "Require statements not allowed"),
     ("eval", "Code evaluation functions blocked"),
     ("exec", "Code execution functions blocked"),
     ("__import__", "Dynamic imports blocked"),
     ("getattr", "Attribute access functions blocked"),
     ("setattr", "Attribute modification functions blocked"),
     ("system", "System calls blocked"),
     ("shell", "Shell access blocked"),
     ("process", "Process manipulation blocked"),
     ("subprocess", "Subprocess creation blocked"),
     ("file(", "Direct file access blocked"),
     ("open(", "File opening functions blocked")]
  | .moderate =>
    [("eval", "Code evaluation functions blocked"),
     ("exec", "Code execution functions blocked"),
     ("__import__", "Dynamic imports blocked"),
     ("system", "System calls blocked"),
     ("shell", "Shell access blocked"),
     ("subprocess", "Subprocess creation blocked")]
  | .permissive =>
    [("eval", "Code evaluation detected"),
     ("exec", "Code execution detected")]

/-- Rust `lib.rs`: the `blocked_urls` flag of the same table. -/
def blockedUrls : SecurityLevel → Bool
  | .strict => true
  | _ => false

/-- Descriptions of the patterns that hit `source.to_lowercase()`, in table
order (the `for (pattern, description) in dangerous_patterns` scan). -/
def scanPatternHits (source : String) (pats : List (String × String)) : List String :=
  pats.filterMap (fun p => if containsSubstr (toLowerStr source) p.1 then some p.2 else none)

/-- The regex `https?://[^\s]+` tested at character position `i`. -/
def urlMatchAt (cs : List Char) (i : Nat) : Option String :=
  let rest := cs.drop i
  let afterScheme : Option Nat :=
    if List.isPrefixOf "https://".toList rest then some 8
    else if List.isPrefixOf "http://".toList rest then some 7
    else none
  match afterScheme with
  | none => none
  | some schemeLen =>
    let body := (rest.drop schemeLen).takeWhile (fun c => !c.isWhitespace)
    if body.isEmpty then none
    else some (String.mk (rest.take (schemeLen + body.length)))

/-- Rust `lib.rs`: `url_regex.find(source)` for `https?://[^\s]+` (leftmost
match). -/
def findUrl (s : String) : Option String :=
  ((List.range s.toList.length).filterMap (fun i => urlMatchAt s.toList i)).head?

/-- Rust `str::lines` (split on `\n`, dropping a final empty piece and a
trailing `\r` on each line). -/
def rustLines (s : String) : List String :=
  let parts := splitOnStr s "\n"
  let parts := if parts.getLast? = some "" then parts.dropLast else parts
  parts.map (fun l => if endsWithStr l "\r" then String.mk l.toList.dropLast else l)

/-- Rust `lib.rs`: `fn calculate_max_nesting`. -/
def calculateMaxNesting (source : String) : Nat :=
  let step := fun (acc : Nat × Nat) (c : Char) =>
    if c = Char.ofNat 123 then (max acc.1 (acc.2 + 1), acc.2 + 1)
    else if c = Char.ofNat 125 then (acc.1, if acc.2 > 0 then acc.2 - 1 else acc.2)
    else acc
  (source.toList.foldl step (0, 0)).1

/-- Rust `lib.rs`: `fn calculate_code_quality_score`.  `u8` casts wrap (`% 256`),
`u8` saturating subtraction is `Nat` subtraction, and the `f32` comparison
`comment_ratio > 0.1` is modelled as `10 * comment_lines > lines.len()`
(exact up to one-ULP rounding at the boundary; no claim depends on this
field). -/
def calculateCodeQualityScore (source : String) : Nat :=
  let score := 100
  let lines := rustLines source
  let score := if lines.length > 1000 then score - 20 else score
  let longLines := (lines.filter (fun l => strLen l > 120)).length
  let score := score - (longLines * 2) % 256
  let maxNesting := calculateMaxNesting source
  let score := if maxNesting > 8 then score - (maxNesting - 8) % 256 * 5 % 256 else score
  let commentLines := (lines.filter (fun l => startsWithStr (trimLeftStr l) "//")).length
  let score := if 10 * commentLines > lines.length then min 100 (score + 10) else score
  score

/-- Rust `lib.rs` lines 194–200 of `validate_source_code`: the final risk-level
classification from the accumulated external resources and warnings. -/
def riskLevelOf (externalResources securityWarnings : List String) : RiskLevel :=
  if !externalResources.isEmpty || securityWarnings.length > 3 then .high
  else if !securityWarnings.isEmpty then .medium
  else .low

/-- The report assembled at the end of `validate_source_code`: quality score
and the risk level computed from the accumulated external resources and
warnings. -/
def mkFinalReport (source : String) (ext warnings : List String) : SecurityReport :=
  { SecurityReport.default with
    externalResources := ext,
    securityWarnings := warnings,
    codeQualityScore := calculateCodeQualityScore source,
    riskLevel := riskLevelOf ext warnings }

/-- Tail of `validate_source_code` after the dangerous-pattern scan: the URL
check (the regex finds at most one match, inserted into the set and either
fatal under `blocked_urls` or downgraded to a warning), then the final
report. -/
def finishReport (source : String) (level : SecurityLevel) (warnings : List String) :
    Except SproutError SecurityReport :=
  match findUrl source with
  | some url =>
    if blockedUrls level then .error (.security "External URLs not allowed in strict mode")
    else .ok (mkFinalReport source [url] (warnings ++ ["External URL detected"]))
  | none => .ok (mkFinalReport source [] warnings)

/-- Rust `lib.rs`: `fn validate_source_code`. -/
def validateSourceCode (source : String) (level : SecurityLevel) :
    Except SproutError SecurityReport :=
  if strLen source > 1000000 then
    .error (.security "Source code exceeds size limit (1MB)")
  else if trimStr source = "" then
    .error (.security "Source code cannot be empty")
  else
    match scanPatternHits source (dangerousPatterns level) with
    | h :: tail =>
      match level with
      | .strict => .error (.security ("Security violation: " ++ h))
      | .moderate => .error (.security ("Security violation: " ++ h))
      | .permissive => finishReport source .permissive (h :: tail)
    | [] => finishReport source level []

/-! ## Lexer (`src/parser.rs`, `fn tokenize`) -/

/-- Rust `parser.rs`: `fn tokenize` — pads the eight delimiters with spaces and
then splits on whitespace.  There is no quote-awareness: this is a pure
whitespace split. -/
def tokenize (source : String) : List String :=
  let s := replaceStr source "\x7b" " \x7b "
  let s := replaceStr s "\x7d" " \x7d "
  let s := replaceStr s "(" " ( "
  let s := replaceStr s ")" " ) "
  let s := replaceStr s "->" " -> "
  let s := replaceStr s "=" " = "
  let s := replaceStr s ":" " : "
  let s := replaceStr s "," " , "
  splitWhitespaceStr s

/-! ## Recursive-descent parser (`src/parser.rs`) and its AST

`parser.rs` builds a second, richer AST (`App` with imports/data models,
`Screen` with a `UI` tree and opaque action code) whose type declarations
are not themselves under `src/`; the structures below are reconstructed
from how `parser.rs`, `enhanced_parser.rs` and `security.rs` use them
(fields read and written), with the spec's §3 data model as a cross-check.
They live in the `Rich` namespace to keep them apart from the flat
`ast.rs` types. -/

namespace Rich

/-- Union of the `ParseError` enums of `parser.rs` and
`enhanced_parser.rs` (the latter extends the former; the two Rust enums
are merged into one so the enhanced validator can reuse the parser). -/
inductive ParseError : Type where
  | unexpected (tok : String)
  | expectedIdent
  | unterminatedString
  | expectedOpenBrace
  | expectedCloseBrace
  | expectedEquals
  | invalidNumber
  | missingField (f : String)
  | invalidSyntax (line : Nat) (msg : String)
  | undefinedReference (msg : String)
  | typeMismatch (expected got : String)
  | duplicateDefinition (msg : String)
deriving Repr, DecidableEq

/-- Result of a parsing step over the remaining token list.  `panicked`
models a Rust panic (e.g. the `s[1..s.len()-1]` slice of a one-character
token, or `Option::unwrap` on `None`); `outOfFuel` is the recursion budget
of the embedding running out — it models Rust divergence (the source's
screen-action loop can spin forever) and never occurs on the concrete
inputs evaluated below. -/
inductive PStep (α : Type) : Type where
  | ok (a : α) (rest : List String)
  | err (e : ParseError)
  | panicked (msg : String)
  | outOfFuel
deriving Repr

/-- Sequencing of parsing steps (the `?` operator plus token-cursor state). -/
def PStep.andThen {α β : Type} (p : PStep α) (f : α → List String → PStep β) : PStep β :=
  match p with
  | .ok a rest => f a rest
  | .err e => .err e
  | .panicked m => .panicked m
  | .outOfFuel => .outOfFuel

/-- Rust `struct Import` (fields per `parser.rs::parse_import`). -/
structure Import : Type where
  name : String
  path : String
deriving Repr, DecidableEq

/-- Rust `enum DataType` (variants per `parser.rs::parse_data_field`). -/
inductive DataType : Type where
  | string
  | int
  | float
  | boolean
  | date
  | custom (name : String)
deriving Repr, DecidableEq

/-- Rust `enum Expr` (variants per `parser.rs::parse_expr`).  `Expr::Number`
holds an `f64`; floating point is not faithfully representable here, so the
literal is kept as its source text — only the parse-branch choice matters
and no claim depends on a numeric value. -/
inductive Expr : Type where
  | number (raw : String)
  | string (s : String)
  | boolean (b : Bool)
  | var (name : String)
  | functionCall (name : String) (args : List Expr)
deriving Repr

/-- Rust `struct Navigation` (fields per `parser.rs::parse_action_block`). -/
structure Navigation : Type where
  screen : String
  args : List Expr
deriving Repr

/-- Rust `struct Parameter` (fields per `parser.rs::parse_parameters`). -/
structure Parameter : Type where
  name : String
  typeName : String
deriving Repr, DecidableEq

/-- Rust `struct StateDecl` (fields per `parser.rs::parse_state`). -/
structure StateDecl : Type where
  name : String
  value : Expr
deriving Repr

/-- Rust `struct DataField` (fields per `parser.rs::parse_data_field`). -/
structure DataField : Type where
  name : String
  typeName : DataType
  default : Option Expr
deriving Repr

/-- Rust `struct DataModel` (name plus fields). -/
structure DataModel : Type where
  name : String
  fields : List DataField
deriving Repr

/-- Rust `enum UI` (variants per `parser.rs::parse_ui`, plus `Binding`, matched
by `enhanced_parser.rs::validate_ui`, and `CustomComponent`, matched by
`security.rs::analyze_ui`; the parser itself never constructs those two). -/
inductive UI : Type where
  | column (children : List UI)
  | row (children : List UI)
  | stack (children : List UI)
  | label (content : String)
  | title (content : String)
  | button (labelTxt : String) (action : Option String) (navigate : Option Navigation)
  | image (src : String)
  | input (labelTxt : String) (binding : String)
  | list (items : String) (child : UI)
  | conditional (condition : Expr) (thenBranch : UI) (elseBranch : Option UI)
  | bindingVar (varName : String)
  | customComponent (name : String) (props : List (String × Expr))
deriving Repr

/-- Rust `parser.rs`: `struct Action { code: String }` (named `ActionDecl` here;
the flat `ast.rs` enum already uses the name `Action`). -/
structure ActionDecl : Type where
  code : String
deriving Repr, DecidableEq

/-- Rust `struct Screen` of the rich AST (fields per `parser.rs::parse_screen`). -/
structure Screen : Type where
  name : String
  parameters : List Parameter
  state : List StateDecl
  ui : UI
  actions : List ActionDecl
deriving Repr

/-- Rust `struct App` of the rich AST (fields per `parser.rs::parse` and
`security.rs::calculate_complexity`). -/
structure App : Type where
  name : String
  start_screen : String
  screens : List Screen
  imports : List Import
  data_models : List DataModel
deriving Repr

/-- Modelled: `App::new(&name, &start_screen)` is not under `src/`; `parse`
overwrites `imports`, `data_models` and `screens` immediately after calling
it, so it sets the two names and leaves the lists empty. -/
def App.new (name startScreen : String) : App :=
  { name := name, start_screen := startScreen, screens := [], imports := [],
    data_models := [] }

/-- Modelled: `Screen::new(&name)`, analogous to `App.new`. -/
def Screen.new (name : String) : Screen :=
  { name := name, parameters := [], state := [], ui := .column [], actions := [] }

/-- Modelled: `DataModel::new(&name)`, analogous to `App.new`. -/
def DataModel.new (name : String) : DataModel := { name := name, fields := [] }

/-- Rust `parser.rs`: `fn expect` — consumes one token; the error carries the
*expected* text (as in the source). -/
def expectTok (ts : List String) (expected : String) : PStep Unit :=
  match ts with
  | t :: rest => if t = expected then .ok () rest else .err (.unexpected expected)
  | [] => .err (.unexpected expected)

/-- Rust `parser.rs`: `fn expect_ident` — returns whatever token comes next. -/
def expectIdent (ts : List String) : PStep String :=
  match ts with
  | t :: rest => .ok t rest
  | [] => .err .expectedIdent

/-- Rust `parser.rs`: `fn parse_string`.  For the one-character token `"` both
`starts_with('"')` and `ends_with('"')` hold and the slice `s[1..0]`
panics. -/
def parseStringTok (ts : List String) : PStep String :=
  match ts with
  | [] => .err .unterminatedString
  | s :: rest =>
    if startsWithQuote s && endsWithQuote s then
      if s.length < 2 then .panicked "slice index starts at 1 but ends at 0"
      else .ok (sliceInner s) rest
    else .err .unterminatedString

/-- Rust `parser.rs`: `fn parse_app`. -/
def parseApp (ts : List String) : PStep App :=
  (expectTok ts "app").andThen fun _ ts =>
  (parseStringTok ts).andThen fun name ts =>
  (expectTok ts "\x7b").andThen fun _ ts =>
  (expectTok ts "start").andThen fun _ ts =>
  (expectTok ts "=").andThen fun _ ts =>
  (expectIdent ts).andThen fun startScreen ts =>
  (expectTok ts "\x7d").andThen fun _ ts =>
  .ok (App.new name startScreen) ts

/-- Rust `parser.rs`: `fn parse_import`. -/
def parseImport (ts : List String) : PStep Import :=
  (expectTok ts "import").andThen fun _ ts =>
  (parseStringTok ts).andThen fun name ts =>
  (expectTok ts "from").andThen fun _ ts =>
  (parseStringTok ts).andThen fun path ts =>
  .ok { name := name, path := path } ts

/-- Rust `parser.rs`: `fn parse_imports` (`while iter.peek() == Some("import")`). -/
def parseImports (fuel : Nat) (ts : List String) : PStep (List Import) :=
  match fuel with
  | 0 => .outOfFuel
  | fuel + 1 =>
    if ts.head? = some "import" then
      (parseImport ts).andThen fun imp ts =>
      (parseImports fuel ts).andThen fun rest ts =>
      .ok (imp :: rest) ts
    else .ok [] ts

/-- Rust `parser.rs`: Rust `f64::from_str` would accept the token (optional sign,
then `inf`/`infinity`/`nan` case-insensitively, or digits with optional
fraction and exponent).  Only this acceptance test is needed — the numeric
value never is. -/
def rustParsesF64 (s : String) : Bool :=
  let cs := s.toList
  let cs :=
    match cs with
    | c :: rest => if c = Char.ofNat 43 || c = Char.ofNat 45 then rest else cs
    | [] => cs
  let lower := cs.map Char.toLower
  if lower = "inf".toList || lower = "infinity".toList || lower = "nan".toList then true
  else
    let intPart := cs.takeWhile Char.isDigit
    let rest := cs.drop intPart.length
    let fracPart :=
      match rest with
      | c :: r => if c = Char.ofNat 46 then some (r.takeWhile Char.isDigit) else none
      | [] => none
    let afterMantissa :=
      match fracPart with
      | some fp => rest.drop (1 + fp.length)
      | none => rest
    if intPart.isEmpty && (fracPart.getD []).isEmpty then false
    else
      match afterMantissa with
      | [] => true
      | e :: r =>
        if e = Char.ofNat 101 || e = Char.ofNat 69 then
          let r :=
            match r with
            | c :: rr => if c = Char.ofNat 43 || c = Char.ofNat 45 then rr else r
            | [] => r
          !r.isEmpty && r.all Char.isDigit
        else false

mutual

/-- Rust `parser.rs`: `fn parse_expr`.  The `"("` lookahead starts a function
call; the final `expect(iter, ")")` has its `Result` discarded in the
source, so it just consumes a token if one is there. -/
def parseExpr (fuel : Nat) (ts : List String) : PStep Expr :=
  match fuel with
  | 0 => .outOfFuel
  | fuel + 1 =>
    match ts with
    | [] => .err (.unexpected "EOF")
    | token :: ts =>
      if rustParsesF64 token then .ok (.number token) ts
      else if startsWithQuote token && endsWithQuote token then
        if token.length < 2 then .panicked "slice index starts at 1 but ends at 0"
        else .ok (.string (sliceInner token)) ts
      else if token = "true" then .ok (.boolean true) ts
      else if token = "false" then .ok (.boolean false) ts
      else if ts.head? = some "(" then
        (parseCallArgs fuel (ts.drop 1)).andThen fun args ts2 =>
        .ok (.functionCall token args) (ts2.drop 1)
      else .ok (.var token) ts

/-- The argument loop of `parse_expr`'s function-call arm
(`while iter.peek() != Some(")")`, optional comma). -/
def parseCallArgs (fuel : Nat) (ts : List String) : PStep (List Expr) :=
  match fuel with
  | 0 => .outOfFuel
  | fuel + 1 =>
    if ts.head? = some ")" then .ok [] ts
    else
      (parseExpr fuel ts).andThen fun e ts =>
      let ts := if ts.head? = some "," then ts.drop 1 else ts
      (parseCallArgs fuel ts).andThen fun rest ts =>
      .ok (e :: rest) ts

end

/-- Rust `parser.rs`: `fn parse_arg_list` (this one *does* check `")"`). -/
def parseArgList (fuel : Nat) (ts : List String) : PStep (List Expr) :=
  (expectTok ts "(").andThen fun _ ts =>
  (parseCallArgs fuel ts).andThen fun args ts =>
  (expectTok ts ")").andThen fun _ ts =>
  .ok args ts

/-- Rust `parser.rs`: `fn parse_data_field`. -/
def parseDataField (fuel : Nat) (ts : List String) : PStep DataField :=
  (expectIdent ts).andThen fun name ts =>
  (expectTok ts ":").andThen fun _ ts =>
  (expectIdent ts).andThen fun tyName ts =>
  let ty : DataType :=
    match tyName with
    | "String" => .string
    | "Int" => .int
    | "Float" => .float
    | "Boolean" => .boolean
    | "Date" => .date
    | other => .custom other
  if ts.head? = some "=" then
    (parseExpr fuel (ts.drop 1)).andThen fun e ts =>
    .ok { name := name, typeName := ty, default := some e } ts
  else .ok { name := name, typeName := ty, default := none } ts

/-- The field loop of `parse_data_model`
(`while iter.peek().map(|t| t != "}") == Some(true)`). -/
def dataFieldsLoop (fuel : Nat) (ts : List String) : PStep (List DataField) :=
  match fuel with
  | 0 => .outOfFuel
  | fuel + 1 =>
    match ts.head? with
    | some t =>
      if t ≠ "\x7d" then
        (parseDataField fuel ts).andThen fun f ts =>
        (dataFieldsLoop fuel ts).andThen fun rest ts =>
        .ok (f :: rest) ts
      else .ok [] ts
    | none => .ok [] ts

/-- Rust `parser.rs`: `fn parse_data_model`. -/
def parseDataModel (fuel : Nat) (ts : List String) : PStep DataModel :=
  (expectTok ts "data").andThen fun _ ts =>
  (expectIdent ts).andThen fun name ts =>
  (expectTok ts "\x7b").andThen fun _ ts =>
  (dataFieldsLoop fuel ts).andThen fun fields ts =>
  (expectTok ts "\x7d").andThen fun _ ts =>
  .ok { name := name, fields := fields } ts

/-- Rust `parser.rs`: `fn parse_data_models` (`while iter.peek() == Some("data")`). -/
def parseDataModels (fuel : Nat) (ts : List String) : PStep (List DataModel) :=
  match fuel with
  | 0 => .outOfFuel
  | fuel + 1 =>
    if ts.head? = some "data" then
      (parseDataModel fuel ts).andThen fun m ts =>
      (parseDataModels fuel ts).andThen fun rest ts =>
      .ok (m :: rest) ts
    else .ok [] ts

/-- The parameter loop of `parse_parameters`
(`while iter.peek() != Some(")")`, optional comma). -/
def paramsLoop (fuel : Nat) (ts : List String) : PStep (List Parameter) :=
  match fuel with
  | 0 => .outOfFuel
  | fuel + 1 =>
    if ts.head? = some ")" then .ok [] ts
    else
      (expectIdent ts).andThen fun name ts =>
      (expectTok ts ":").andThen fun _ ts =>
      (expectIdent ts).andThen fun tyName ts =>
      let ts := if ts.head? = some "," then ts.drop 1 else ts
      (paramsLoop fuel ts).andThen fun rest ts =>
      .ok ({ name := name, typeName := tyName } :: rest) ts

/-- Rust `parser.rs`: `fn parse_parameters`. -/
def parseParams (fuel : Nat) (ts : List String) : PStep (List Parameter) :=
  (expectTok ts "(").andThen fun _ ts =>
  (paramsLoop fuel ts).andThen fun ps ts =>
  (expectTok ts ")").andThen fun _ ts =>
  .ok ps ts

/-- Rust `parser.rs`: `fn parse_state`. -/
def parseState (fuel : Nat) (ts : List String) : PStep StateDecl :=
  (expectTok ts "state").andThen fun _ ts =>
  (expectIdent ts).andThen fun name ts =>
  (expectTok ts "=").andThen fun _ ts =>
  (parseExpr fuel ts).andThen fun value ts =>
  .ok { name := name, value := value } ts

/-- Rust `parser.rs`: `fn parse_string_or_expr`.  When the iterator is exhausted
the source calls `iter.next().unwrap()` and panics. -/
def parseStringOrExpr (ts : List String) : PStep String :=
  match ts with
  | t :: rest =>
    if startsWithQuote t && endsWithQuote t then parseStringTok ts
    else if startsWithStr t "$" && containsSubstr t "\x7b" then .ok t rest
    else .err (.unexpected t)
  | [] => .panicked "called Option::unwrap on a None value"

/-- The body loop of `parse_action_block`: accumulates raw action text and
the last `-> Screen(args)` navigation. -/
def actionBlockLoop (fuel : Nat) (ts : List String) (code : String)
    (nav : Option Navigation) : PStep (String × Option Navigation) :=
  match fuel with
  | 0 => .outOfFuel
  | fuel + 1 =>
    match ts with
    | t :: rest =>
      if t = "\x7d" then .ok (code, nav) ts
      else if t = "->" then
        (expectIdent rest).andThen fun screen ts =>
        if ts.head? = some "(" then
          (parseArgList fuel ts).andThen fun args ts =>
          actionBlockLoop fuel ts code (some { screen := screen, args := args })
        else actionBlockLoop fuel ts code (some { screen := screen, args := [] })
      else actionBlockLoop fuel rest (code ++ t ++ " ") nav
    | [] => .ok (code, nav) ts

/-- Rust `parser.rs`: `fn parse_action_block`. -/
def parseActionBlock (fuel : Nat) (ts : List String) :
    PStep (Option String × Option Navigation) :=
  (expectTok ts "\x7b").andThen fun _ ts =>
  (actionBlockLoop fuel ts "" none).andThen fun cn ts =>
  (expectTok ts "\x7d").andThen fun _ ts =>
  let action := if trimStr cn.1 = "" then none else some (trimStr cn.1)
  .ok (action, cn.2) ts

mutual

/-- Rust `parser.rs`: `fn parse_ui` (dispatch on the leading keyword). -/
def parseUI (fuel : Nat) (ts : List String) : PStep UI :=
  match fuel with
  | 0 => .outOfFuel
  | fuel + 1 =>
    match ts with
    | [] => .err (.unexpected "EOF")
    | token :: ts =>
      if token = "column" then
        (parseContainerChildren fuel ts).andThen fun cs ts => .ok (.column cs) ts
      else if token = "row" then
        (parseContainerChildren fuel ts).andThen fun cs ts => .ok (.row cs) ts
      else if token = "stack" then
        (parseContainerChildren fuel ts).andThen fun cs ts => .ok (.stack cs) ts
      else if token = "label" then
        (parseStringOrExpr ts).andThen fun content ts => .ok (.label content) ts
      else if token = "title" then
        (parseStringOrExpr ts).andThen fun content ts => .ok (.title content) ts
      else if token = "button" then
        (parseStringOrExpr ts).andThen fun labelTxt ts =>
        (parseActionBlock fuel ts).andThen fun an ts =>
        .ok (.button labelTxt an.1 an.2) ts
      else if token = "image" then
        (parseStringTok ts).andThen fun src ts => .ok (.image src) ts
      else if token = "input" then
        (parseStringTok ts).andThen fun labelTxt ts =>
        (expectTok ts "binding").andThen fun _ ts =>
        (expectTok ts ":").andThen fun _ ts =>
        (expectIdent ts).andThen fun binding ts =>
        .ok (.input labelTxt binding) ts
      else if token = "list" then
        (expectIdent ts).andThen fun items ts =>
        (expectTok ts "\x7b").andThen fun _ ts =>
        (parseUI fuel ts).andThen fun child ts =>
        (expectTok ts "\x7d").andThen fun _ ts =>
        .ok (.list items child) ts
      else if token = "if" then
        (parseExpr fuel ts).andThen fun condition ts =>
        (expectTok ts "\x7b").andThen fun _ ts =>
        (parseUI fuel ts).andThen fun thenBranch ts =>
        (expectTok ts "\x7d").andThen fun _ ts =>
        if ts.head? = some "else" then
          (expectTok (ts.drop 1) "\x7b").andThen fun _ ts =>
          (parseUI fuel ts).andThen fun elseBranch ts =>
          (expectTok ts "\x7d").andThen fun _ ts =>
          .ok (.conditional condition thenBranch (some elseBranch)) ts
        else .ok (.conditional condition thenBranch none) ts
      else if startsWithStr token "$" && containsSubstr token "\x7b" then
        -- `parse_interpolated_string` returns its input unchanged
        .ok (.label token) ts
      else .err (.unexpected token)

/-- Rust `parser.rs`: `fn parse_container` (children until the closing brace). -/
def parseContainerChildren (fuel : Nat) (ts : List String) : PStep (List UI) :=
  match fuel with
  | 0 => .outOfFuel
  | fuel + 1 =>
    match ts with
    | t0 :: _ =>
      if t0 = "\x7b" then
        -- `expect(iter, "{")` then the child loop then `expect(iter, "}")`
        (containerLoop fuel (ts.drop 1)).andThen fun cs ts =>
        (expectTok ts "\x7d").andThen fun _ ts =>
        .ok cs ts
      else .err (.unexpected "\x7b")
    | [] => .err (.unexpected "\x7b")

/-- The child loop of `parse_container`
(`while iter.peek().map(|t| t != "}") == Some(true)`). -/
def containerLoop (fuel : Nat) (ts : List String) : PStep (List UI) :=
  match fuel with
  | 0 => .outOfFuel
  | fuel + 1 =>
    match ts.head? with
    | some t =>
      if t ≠ "\x7d" then
        (parseUI fuel ts).andThen fun c ts =>
        (containerLoop fuel ts).andThen fun rest ts =>
        .ok (c :: rest) ts
      else .ok [] ts
    | none => .ok [] ts

end

/-- The raw-code loop of `parse_action`
(`while iter.peek().map(|t| t != "}") == Some(true)`). -/
def actionCodeLoop (fuel : Nat) (ts : List String) (code : String) : PStep String :=
  match fuel with
  | 0 => .outOfFuel
  | fuel + 1 =>
    match ts with
    | t :: rest =>
      if t ≠ "\x7d" then actionCodeLoop fuel rest (code ++ t ++ " ")
      else .ok code ts
    | [] => .ok code ts

/-- Rust `parser.rs`: `fn parse_action` — `on <event> { raw tokens }`; the event
name is read and then discarded (the `Action` struct stores only code).
Consumes nothing and returns `none` when the next token is not `on`. -/
def parseAction (fuel : Nat) (ts : List String) : PStep (Option ActionDecl) :=
  if ts.head? = some "on" then
    (expectIdent (ts.drop 1)).andThen fun _event ts =>
    (expectTok ts "\x7b").andThen fun _ ts =>
    (actionCodeLoop fuel ts "").andThen fun code ts =>
    (expectTok ts "\x7d").andThen fun _ ts =>
    .ok (some { code := trimStr code }) ts
  else .ok none ts

/-- The state loop of `parse_screen` (`while iter.peek() == Some("state")`). -/
def screenStateLoop (fuel : Nat) (ts : List String) : PStep (List StateDecl) :=
  match fuel with
  | 0 => .outOfFuel
  | fuel + 1 =>
    if ts.head? = some "state" then
      (parseState fuel ts).andThen fun st ts =>
      (screenStateLoop fuel ts).andThen fun rest ts =>
      .ok (st :: rest) ts
    else .ok [] ts

/-- The action loop of `parse_screen`.  When the next token is neither `on`
nor `}` the Rust loop never consumes it and spins forever; here the fuel
runs out instead. -/
def screenActionsLoop (fuel : Nat) (ts : List String) : PStep (List ActionDecl) :=
  match fuel with
  | 0 => .outOfFuel
  | fuel + 1 =>
    match ts.head? with
    | some t =>
      if t ≠ "\x7d" then
        (parseAction fuel ts).andThen fun oa ts =>
        (screenActionsLoop fuel ts).andThen fun rest ts =>
        .ok (oa.toList ++ rest) ts
      else .ok [] ts
    | none => .ok [] ts

/-- Rust `parser.rs`: `fn parse_screen`. -/
def parseScreen (fuel : Nat) (ts : List String) : PStep Screen :=
  (expectTok ts "screen").andThen fun _ ts =>
  (expectIdent ts).andThen fun name ts =>
  (if ts.head? = some "(" then parseParams fuel ts else .ok [] ts).andThen
    fun parameters ts =>
  (expectTok ts "\x7b").andThen fun _ ts =>
  (screenStateLoop fuel ts).andThen fun state ts =>
  (expectTok ts "ui").andThen fun _ ts =>
  (expectTok ts "\x7b").andThen fun _ ts =>
  (parseUI fuel ts).andThen fun ui ts =>
  (expectTok ts "\x7d").andThen fun _ ts =>
  (screenActionsLoop fuel ts).andThen fun actions ts =>
  (expectTok ts "\x7d").andThen fun _ ts =>
  .ok { name := name, parameters := parameters, state := state, ui := ui,
        actions := actions } ts

/-- Rust `parser.rs`: `fn parse_screens` — parses `screen` blocks and silently
skips any other token. -/
def parseScreens (fuel : Nat) (ts : List String) : PStep (List Screen) :=
  match fuel with
  | 0 => .outOfFuel
  | fuel + 1 =>
    match ts with
    | token :: rest =>
      if token = "screen" then
        (parseScreen fuel ts).andThen fun s ts =>
        (parseScreens fuel ts).andThen fun more ts =>
        .ok (s :: more) ts
      else parseScreens fuel rest
    | [] => .ok [] ts

/-- The body of `parser.rs::parse` after tokenisation. -/
def parseProgram (fuel : Nat) (ts : List String) : PStep App :=
  (parseApp ts).andThen fun app ts =>
  (parseImports fuel ts).andThen fun imports ts =>
  (parseDataModels fuel ts).andThen fun dms ts =>
  (parseScreens fuel ts).andThen fun screens ts =>
  .ok { app with imports := imports, data_models := dms, screens := screens } ts

/-- Rust `parser.rs`: `pub fn parse`.  The fuel is a recursion budget of the
embedding, generously larger than any run the token list can sustain; it is
irrelevant to error/success results on the concrete inputs below. -/
def parse (source : String) : PStep App :=
  let ts := tokenize source
  parseProgram ((ts.length + 4) * 8) ts

/-! ### Enhanced parser (`src/enhanced_parser.rs`) -/

/-- The duplicate scan of `validate_screen` (a `HashSet::insert` loop):
first name already seen, in declaration order. -/
def firstDup (seen : List String) : List String → Option String
  | [] => none
  | n :: rest => if seen.contains n then some n else firstDup (n :: seen) rest

mutual

/-- Rust `enhanced_parser.rs`: `fn validate_ui`.  Note that the `List` arm checks
only the `items` binding and does not recurse into the child template, and a
`Button` without navigation falls through to the wildcard. -/
def validateUI (ui : UI) (screen : Screen) (app : App) : Except ParseError Unit :=
  match ui with
  | .button _ _ (some nav) =>
    if !(app.screens.any (fun s => s.name == nav.screen)) && nav.screen ≠ "Back" then
      .error (.undefinedReference ("Target screen '" ++ nav.screen ++ "' not defined"))
    else .ok ()
  | .list items _ =>
    if !(screen.state.any (fun s => s.name == items)) then
      .error (.undefinedReference ("List items '" ++ items ++ "' not defined"))
    else .ok ()
  | .bindingVar v =>
    if !(screen.state.any (fun s => s.name == v)) then
      .error (.undefinedReference ("Bound variable '" ++ v ++ "' not defined"))
    else .ok ()
  | .column children => validateUIList children screen app
  | .row children => validateUIList children screen app
  | .stack children => validateUIList children screen app
  | .conditional _ thenBranch elseBranch =>
    match validateUI thenBranch screen app with
    | .error e => .error e
    | .ok () =>
      match elseBranch with
      | some e => validateUI e screen app
      | none => .ok ()
  | _ => .ok ()

/-- The recursion over container children in `validate_ui`. -/
def validateUIList (l : List UI) (screen : Screen) (app : App) : Except ParseError Unit :=
  match l with
  | [] => .ok ()
  | c :: rest =>
    match validateUI c screen app with
    | .error e => .error e
    | .ok () => validateUIList rest screen app

end

/-- Rust `enhanced_parser.rs`: `fn validate_screen`. -/
def validateScreen (screen : Screen) (app : App) (lines : List String) :
    Except ParseError Unit :=
  match firstDup [] (screen.state.map (fun s => s.name)) with
  | some n => .error (.duplicateDefinition ("State '" ++ n ++ "' defined multiple times"))
  | none => validateUI screen.ui screen app

/-- The screen loop of `validate_app`. -/
def validateScreensLoop (l : List Screen) (app : App) (lines : List String) :
    Except ParseError Unit :=
  match l with
  | [] => .ok ()
  | s :: rest =>
    match validateScreen s app lines with
    | .error e => .error e
    | .ok () => validateScreensLoop rest app lines

/-- Rust `enhanced_parser.rs`: `fn validate_app` — the start screen must be a
declared screen, then every screen is validated. -/
def validateApp (app : App) (lines : List String) : Except ParseError Unit :=
  if !(app.screens.any (fun s => s.name == app.start_screen)) then
    .error (.undefinedReference ("Start screen '" ++ app.start_screen ++ "' not defined"))
  else validateScreensLoop app.screens app lines

/-- Rust `enhanced_parser.rs`: `pub fn parse` — the same grammar as
`parser.rs::parse` (it imports those sub-parsers) followed by
`validate_app`. -/
def enhancedParse (source : String) : PStep App :=
  (parseProgram (((tokenize source).length + 4) * 8) (tokenize source)).andThen
    fun app ts =>
      match validateApp app (rustLines source) with
      | .error e => .err e
      | .ok () => .ok app ts

end Rich

/-! ## Static security analysis (`src/security.rs`) -/

/-- Rust `security.rs`: `enum SecurityError`. -/
inductive SecurityError : Type where
  | dangerousFunction (function : String)
  | unsafeImport (imp : String)
  | resourceLimit (resource : String) (current : Nat) (limit : Nat)
  | permissionViolation (permission : String)
  | complexityLimit (complexity : Nat)
  | unsafeDataAccess (details : String)
deriving Repr, DecidableEq

/-- Rust `security.rs`: `struct ResourceLimits`. -/
structure ResourceLimits : Type where
  maxScreens : Nat
  maxStateVars : Nat
  maxNestingDepth : Nat
  maxStringLength : Nat
  maxFunctionCalls : Nat
  maxUiElements : Nat
deriving Repr, DecidableEq

/-- Rust `security.rs`: `impl Default for ResourceLimits`. -/
def ResourceLimits.default : ResourceLimits :=
  { maxScreens := 50, maxStateVars := 100, maxNestingDepth := 10,
    maxStringLength := 10000, maxFunctionCalls := 200, maxUiElements := 500 }

mutual

/-- Rust `security.rs`: `fn count_ui_elements`. -/
def countUiElements : Rich.UI → Nat
  | .column children => 1 + countUiList children
  | .row children => 1 + countUiList children
  | .stack children => 1 + countUiList children
  | .list _ child => 1 + countUiElements child
  | .conditional _ thenBranch elseBranch =>
    match elseBranch with
    | some e => 1 + countUiElements thenBranch + countUiElements e
    | none => 1 + countUiElements thenBranch
  | _ => 1

/-- The `children.iter().map(count).sum()` of `count_ui_elements`. -/
def countUiList : List Rich.UI → Nat
  | [] => 0
  | c :: rest => countUiElements c + countUiList rest

end

/-- The per-screen loop of `check_resource_limits`, accumulating
`total_ui_elements` (the count is added before it is checked, as in the
source). -/
def checkScreensLoop (limits : ResourceLimits) (screens : List Rich.Screen)
    (total : Nat) : Except SecurityError Nat :=
  match screens with
  | [] => .ok total
  | s :: rest =>
    if s.state.length > limits.maxStateVars then
      .error (.resourceLimit ("state variables in screen '" ++ s.name ++ "'")
        s.state.length limits.maxStateVars)
    else
      let uiCount := countUiElements s.ui
      let total2 := total + uiCount
      if uiCount > limits.maxUiElements then
        .error (.resourceLimit ("UI elements in screen '" ++ s.name ++ "'")
          uiCount limits.maxUiElements)
      else checkScreensLoop limits rest total2

/-- Rust `security.rs`: `fn check_resource_limits` — returns the
`total_ui_elements` value it writes into the report. -/
def checkResourceLimits (limits : ResourceLimits) (app : Rich.App) :
    Except SecurityError Nat :=
  if app.screens.length > limits.maxScreens then
    .error (.resourceLimit "screens" app.screens.length limits.maxScreens)
  else checkScreensLoop limits app.screens 0

/-! ## Basic lemmas about the runtime state operations -/

theorem logEvent_state (rt : WasmRuntime) (e : ExecutionEvent) :
    (logEvent rt e).state = rt.state := by
  unfold logEvent; split <;> rfl

theorem logEvent_memoryUsage (rt : WasmRuntime) (e : ExecutionEvent) :
    (logEvent rt e).memoryUsage = rt.memoryUsage := by
  unfold logEvent; split <;> rfl

theorem logEvent_options (rt : WasmRuntime) (e : ExecutionEvent) :
    (logEvent rt e).options = rt.options := by
  unfold logEvent; split <;> rfl

theorem trackMemoryUsage_state (rt : WasmRuntime) (bytes : Nat) :
    (trackMemoryUsage rt bytes).state = rt.state := by
  unfold trackMemoryUsage
  dsimp only
  split
  · rw [logEvent_state]
  · rfl

theorem trackMemoryUsage_memoryUsage (rt : WasmRuntime) (bytes : Nat) :
    (trackMemoryUsage rt bytes).memoryUsage = rt.memoryUsage + bytes := by
  unfold trackMemoryUsage
  dsimp only
  split
  · rw [logEvent_memoryUsage]
  · rfl

/-- C10: `update_state` is atomic on failure — whenever it returns an error
(over-long name, name containing `eval`/`exec`, over-long string value,
over-long array, over-large object), the state map is exactly what it was
before the call; and those five conditions are exactly the error cases. -/
theorem update_state_atomic_on_failure :
    (∀ (rt : WasmRuntime) (name : String) (value : ValueType) (rt2 : WasmRuntime) (e : RunErr),
      updateState rt name value = (rt2, Except.error e) → rt2.state = rt.state)
    ∧ (∀ (rt : WasmRuntime) (name : String) (value : ValueType),
      (∃ rt2 e, updateState rt name value = (rt2, Except.error e)) ↔
        (strLen name > 50 ∨ containsSubstr name "eval" = true ∨
         containsSubstr name "exec" = true ∨
         (∃ s, value = ValueType.string s ∧ strLen s > 1000) ∨
         (∃ arr, value = ValueType.array arr ∧ arr.length > 100) ∨
         (∃ obj, value = ValueType.object obj ∧ obj.length > 50))) := by
  constructor
  · intro rt name value rt2 e h
    cases value <;>
      (unfold updateState at h
       dsimp only at h
       split_ifs at h <;> simp_all [commitState])
  · intro rt name value
    constructor
    · rintro ⟨rt2, e, h⟩
      cases value <;>
        (unfold updateState at h
         dsimp only at h
         split_ifs at h <;>
           simp_all [commitState, Bool.or_eq_true] <;> tauto)
    · intro h
      by_cases hlen : strLen name > 50
      · refine ⟨rt, .err "State variable name too long", ?_⟩
        cases value <;> (unfold updateState; rw [if_pos hlen])
      · by_cases hdang : (containsSubstr name "eval" || containsSubstr name "exec") = true
        · refine ⟨rt, .err ("Dangerous variable name: " ++ name), ?_⟩
          cases value <;> (unfold updateState; rw [if_neg hlen, if_pos hdang])
        · rcases h with h | h | h | ⟨s, rfl, hs⟩ | ⟨arr, rfl, ha⟩ | ⟨obj, rfl, ho⟩
          · exact absurd h hlen
          · exact absurd h (by simp_all [Bool.or_eq_true])
          · exact absurd h (by simp_all [Bool.or_eq_true])
          · refine ⟨rt, .err "String value too long", ?_⟩
            unfold updateState
            rw [if_neg hlen, if_neg hdang]
            dsimp only
            rw [if_pos hs]
          · refine ⟨rt, .err "Array too large", ?_⟩
            unfold updateState
            rw [if_neg hlen, if_neg hdang]
            dsimp only
            rw [if_pos ha]
          · refine ⟨rt, .err "Object too large", ?_⟩
            unfold updateState
            rw [if_neg hlen, if_neg hdang]
            dsimp only
            rw [if_pos ho]

/-- A small concrete runtime used by several witnesses below. -/
def rtWitness : WasmRuntime :=
  { state := [("x", ValueType.number 1)], options := RuntimeOptions.default,
    memoryUsage := 0, executionLog := [] }

/-- C10 witness: applying the atomicity theorem at a concrete failing call
(the name contains `exec`). -/
theorem update_state_atomic_on_failure_witness :
    ((updateState rtWitness "doexecnow" (ValueType.number 3)).1).state
      = [("x", ValueType.number 1)] :=
  update_state_atomic_on_failure.1 rtWitness
    "doexecnow" (ValueType.number 3) rtWitness
    (.err "Dangerous variable name: doexecnow") rfl

unseal executeAction executeActions executeLoopIter in
/-- C9 counterexample: the claim's condition grammar is wrong on two counts.
A condition outside the grammar that contains `eval` produces an *error*,
not the claimed fail-closed `false`; and a variable-vs-literal equality is
*not* accepted: with `x = 1` in the state, the condition `x == 1` evaluates
to `false` and an `If` action guarded by it does not run its then-branch
(the state is left untouched). -/
theorem condition_grammar_cex :
    evaluateCondition "an eval here" = .error (.err "Dangerous condition detected")
    ∧ evaluateCondition "x == 1" = .ok false
    ∧ (executeAction rtWitness
        (Action.ite "x == 1" (Action.updateState "y" "5") none)).1.state
        = [("x", ValueType.number 1)] :=
  ⟨rfl, rfl, rfl⟩

/-- C9 amended: the evaluator accepts only bare `true`/`false`, equality of
two integer literals, and equality of two quoted string literals; it never
consults the runtime state (it is a function of the condition string only,
by its very signature); an error arises exactly from an `eval`/`exec`
substring; everything else is fail-closed `false` — except that a lone-quote
comparand panics, which is modelled separately from `err`. -/
theorem condition_fail_closed_behavior :
    (∀ (cond : String) (m : String),
      evaluateCondition cond = .error (.err m) →
        containsSubstr cond "eval" = true ∨ containsSubstr cond "exec" = true)
    ∧ evaluateCondition "true" = .ok true
    ∧ evaluateCondition "false" = .ok false
    ∧ evaluateCondition "5 == 5" = .ok true
    ∧ evaluateCondition "5 == 6" = .ok false
    ∧ evaluateCondition "\"a\" == \"a\"" = .ok true
    ∧ evaluateCondition "\"a\" == \"b\"" = .ok false
    ∧ evaluateCondition "y == \"a\"" = .ok false := by
  refine ⟨?_, rfl, rfl, rfl, rfl, rfl, rfl, rfl⟩
  intro cond m h
  unfold evaluateCondition at h
  split_ifs at h with hdang
  · simpa [Bool.or_eq_true] using hdang
  · try dsimp only at h
    split_ifs at h <;> try simp_all
    split at h
    · try dsimp only at h
      split at h
      · simp at h
      · split_ifs at h <;> simp_all
    · simp at h

/-- C9 witness for the amended theorem: its error-implies-denylist part
applied at a concrete erroring condition. -/
theorem condition_fail_closed_behavior_witness :
    containsSubstr "an eval here" "eval" = true
      ∨ containsSubstr "an eval here" "exec" = true :=
  condition_fail_closed_behavior.1 "an eval here" "Dangerous condition detected" rfl

/-- The report returned by a successful `finishReport` carries exactly the
risk level computed from its own resources and warnings. -/
theorem finishReport_ok_risk (source : String) (level : SecurityLevel)
    (warnings : List String) (r : SecurityReport)
    (h : finishReport source level warnings = .ok r) :
    r.riskLevel = riskLevelOf r.externalResources r.securityWarnings := by
  unfold finishReport at h
  revert h
  split
  · split_ifs
    · intro h; exact absurd h (by simp)
    · intro h
      simp only [Except.ok.injEq] at h
      rw [← h]
      rfl
  · intro h
    simp only [Except.ok.injEq] at h
    rw [← h]
    rfl

/-- The classification of `lib.rs` lines 194–200 in the spec's words. -/
theorem riskLevelOf_eq (ext w : List String) :
    riskLevelOf ext w =
      if ext ≠ [] ∨ w.length > 3 then .high
      else if w ≠ [] then .medium
      else .low := by
  unfold riskLevelOf
  split_ifs with h1 h2 h3 h4 h5 <;>
    simp_all [List.isEmpty_iff] <;> omega

/-- C7: the final risk level of a report produced by `validate_source_code`
is exactly the classification of its external resources and warnings —
`High` whenever an external resource is present or more than three warnings
accumulated, `Medium` whenever some warning is present (and not the
former), `Low` otherwise — and the classification is monotone (adding
warnings or resources never lowers it) in the
`Low < Medium < High < Critical` order. -/
theorem risk_level_classification_monotone :
    (∀ source level r, validateSourceCode source level = .ok r →
      r.riskLevel = riskLevelOf r.externalResources r.securityWarnings)
    ∧ (∀ ext w, riskLevelOf ext w =
        if ext ≠ [] ∨ w.length > 3 then .high
        else if w ≠ [] then .medium
        else .low)
    ∧ (∀ ext ext2 w w2, ext.Sublist ext2 → w.Sublist w2 →
      riskRank (riskLevelOf ext w) ≤ riskRank (riskLevelOf ext2 w2)) := by
  refine ⟨?_, riskLevelOf_eq, ?_⟩
  · intro source level r h
    unfold validateSourceCode at h
    split_ifs at h <;>
      first
        | exact absurd h (by simp)
        | (revert h
           split
           · split
             · intro h; exact absurd h (by simp)
             · intro h; exact absurd h (by simp)
             · intro h; exact finishReport_ok_risk _ _ _ _ h
           · intro h; exact finishReport_ok_risk _ _ _ _ h)
  · intro ext ext2 w w2 hext hw
    have hlen : w.length ≤ w2.length := hw.length_le
    have hne : ext ≠ [] → ext2 ≠ [] := by
      intro h1 h2
      subst h2
      exact h1 (List.sublist_nil.mp hext)
    have hwne : w ≠ [] → w2 ≠ [] := by
      intro h1 h2
      subst h2
      exact h1 (List.sublist_nil.mp hw)
    have k1 : (ext ≠ [] ∨ w.length > 3) → (ext2 ≠ [] ∨ w2.length > 3) := by
      rintro (h | h)
      · exact Or.inl (hne h)
      · right; omega
    rw [riskLevelOf_eq, riskLevelOf_eq]
    split_ifs with a1 a2 a3 a4 <;> simp [riskRank] <;> tauto

/-- C7 witness: monotonicity applied at concrete reports (no resources or
warnings versus one external resource). -/
theorem risk_level_classification_monotone_witness :
    riskRank (riskLevelOf [] []) ≤ riskRank (riskLevelOf ["https://x"] []) :=
  risk_level_classification_monotone.2.2 [] ["https://x"] [] []
    (List.nil_sublist _) (List.Sublist.refl _)

/-- A trivial rich screen used for the screen-count boundary. -/
def trivRichScreen : Rich.Screen :=
  { name := "S", parameters := [], state := [], ui := .label "x", actions := [] }

/-- A rich app with exactly `MAX_SCREENS = 50` screens. -/
def richApp50 : Rich.App :=
  { name := "A", start_screen := "S", screens := List.replicate 50 trivRichScreen,
    imports := [], data_models := [] }

/-- A rich app with `MAX_SCREENS + 1 = 51` screens. -/
def richApp51 : Rich.App :=
  { name := "A", start_screen := "S", screens := List.replicate 51 trivRichScreen,
    imports := [], data_models := [] }

/-- A trivial flat screen for the `ast.rs` side of the same boundary. -/
def trivFlatScreen : Screen := { name := "S", state := [], ui := [] }

/-- Flat app with 50 screens. -/
def flatApp50 : App :=
  { name := "A", start_screen := "S", screens := List.replicate 50 trivFlatScreen,
    state := [] }

/-- Flat app with 51 screens. -/
def flatApp51 : App :=
  { name := "A", start_screen := "S", screens := List.replicate 51 trivFlatScreen,
    state := [] }

/-- C8: a program with exactly 50 screens passes the screen-count resource
check (both the analyzer's `check_resource_limits` and `App::validate`),
while one with 51 fails with a resource-limit error citing `screens` and
carrying the count and the limit. -/
theorem max_screens_boundary :
    checkResourceLimits ResourceLimits.default richApp50 = .ok 50
    ∧ checkResourceLimits ResourceLimits.default richApp51
        = .error (.resourceLimit "screens" 51 50)
    ∧ App.validate flatApp50 = .ok ()
    ∧ App.validate flatApp51 = .error ("Too many screens. Maximum is " ++ toString 50) :=
  ⟨rfl, rfl, rfl, rfl⟩

/-- C4 (code bug): on the adversarial source `app "` — whose second token is
a lone double quote — `parse` panics through the `s[1..s.len()-1]` slice of
`parse_string` instead of returning the `UnterminatedString` error, so the
parse operation raises an uncaught fault to its caller. -/
theorem parse_panics_on_lone_quote :
    tokenize "app \"" = ["app", "\""]
    ∧ Rich.parse "app \"" = .panicked "slice index starts at 1 but ends at 0" :=
  ⟨rfl, rfl⟩

/-- The source text of `lib.rs`'s own `test_safe_code_compilation` program,
reduced to one line (tokenisation is whitespace-insensitive). -/
def libTestSource : String :=
  "app \"Test\" \x7b start = \"Home\" \x7d screen Home \x7b ui \x7b label \"Hello World\" \x7d \x7d"

/-- C5 (code bug): the lexer is a pure whitespace split, so the quoted
literal `"Hello World"` is emitted as the two tokens `"Hello` and `World"`
rather than one; consequently parsing the program of `lib.rs`'s own
`test_safe_code_compilation` test (which asserts success) fails with an
unexpected-token error on `"Hello`. -/
theorem tokenize_splits_quoted_literal :
    tokenize "label \"Hello World\"" = ["label", "\"Hello", "World\""]
    ∧ Rich.parse libTestSource = .err (.unexpected "\"Hello") :=
  ⟨rfl, rfl⟩

/-- The rich app `parser.rs::parse` produces from
`app "T" { start = Home }`: no screens, yet `start_screen = "Home"`. -/
def danglingApp : Rich.App :=
  { name := "T", start_screen := "Home", screens := [], imports := [],
    data_models := [] }

/-- C6 counterexample: the basic parser (`parser.rs::parse`, the one used by
`lib.rs`) returns this app *successfully* even though its start screen names
no declared screen — so "every App that parsing returns successfully has a
start_screen naming an existing Screen" fails for it, and no
undefined-reference error is raised. -/
theorem parse_returns_dangling_start_screen_cex :
    Rich.parse "app \"T\" \x7b start = Home \x7d" = .ok danglingApp []
    ∧ danglingApp.screens.any (fun s => s.name == danglingApp.start_screen) = false :=
  ⟨rfl, rfl⟩

/-- A successful `validate_app` implies the start screen is declared. -/
theorem validateApp_ok_start (app : Rich.App) (lines : List String)
    (h : Rich.validateApp app lines = .ok ()) :
    app.screens.any (fun s => s.name == app.start_screen) = true := by
  unfold Rich.validateApp at h
  cases hany : app.screens.any (fun s => s.name == app.start_screen) with
  | true => rfl
  | false => simp [hany] at h

/-- C6 amended: it is the *enhanced* parser's `validate_app` that enforces
the start-screen invariant — a missing start screen fails it with an
undefined-reference error naming that screen, and every App returned
successfully by `enhanced_parser::parse` has a declared start screen.  The
basic `parser.rs::parse` used by `lib.rs` performs no such check (see the
counterexample). -/
theorem validate_app_enforces_start_screen :
    (∀ (app : Rich.App) (lines : List String),
      Rich.validateApp app lines = .ok () →
      app.screens.any (fun s => s.name == app.start_screen) = true)
    ∧ (∀ (app : Rich.App) (lines : List String),
      app.screens.any (fun s => s.name == app.start_screen) = false →
      Rich.validateApp app lines =
        .error (.undefinedReference
          ("Start screen '" ++ app.start_screen ++ "' not defined")))
    ∧ (∀ (source : String) (app : Rich.App) (rest : List String),
      Rich.enhancedParse source = .ok app rest →
      app.screens.any (fun s => s.name == app.start_screen) = true) := by
  refine ⟨validateApp_ok_start, ?_, ?_⟩
  · intro app lines h
    unfold Rich.validateApp
    simp [h]
  · intro source app rest h
    unfold Rich.enhancedParse Rich.PStep.andThen at h
    revert h
    split
    · dsimp only
      split
      · intro h; exact absurd h (by simp)
      · rename_i hv
        intro h
        simp only [Rich.PStep.ok.injEq] at h
        rw [← h.1]
        exact validateApp_ok_start _ _ hv
    · intro h; exact absurd h (by simp)
    · intro h; exact absurd h (by simp)
    · intro h; exact absurd h (by simp)

/-- C6 witness: the amended theorem's error case applied at a concrete app
whose start screen `Missing` is not declared. -/
theorem validate_app_enforces_start_screen_witness :
    Rich.validateApp
      { name := "T", start_screen := "Missing", screens := [trivRichScreen],
        imports := [], data_models := [] } []
      = .error (.undefinedReference "Start screen 'Missing' not defined") :=
  validate_app_enforces_start_screen.2.1
    { name := "T", start_screen := "Missing", screens := [trivRichScreen],
      imports := [], data_models := [] } [] rfl

/-- Membership in the dangerous-pattern scan result. -/
theorem mem_scanPatternHits (source : String) (pats : List (String × String))
    (p : String × String) (hp : p ∈ pats)
    (hc : containsSubstr (toLowerStr source) p.1 = true) :
    p.2 ∈ scanPatternHits source pats := by
  unfold scanPatternHits
  exact List.mem_filterMap.mpr ⟨p, hp, by simp [hc]⟩

/-- C2 counterexample: the program `system` contains the denylisted
capability substring `system`, so Strict compilation fails with a security
error — but at Permissive level it validates successfully with an *empty*
warning list (the Permissive pattern table only contains `eval`/`exec`),
contradicting the claimed non-empty warning list. -/
theorem permissive_empty_warnings_cex :
    validateSourceCode "system" .strict
      = .error (.security "Security violation: System calls blocked")
    ∧ validateSourceCode "system" .permissive = .ok (mkFinalReport "system" [] [])
    ∧ (mkFinalReport "system" [] []).securityWarnings = [] :=
  ⟨rfl, rfl, rfl⟩

/-- C2 amended: restricted to the denylist substrings that Permissive still
scans for (`eval`, `exec`), the claim holds at the validation stage: any
in-budget, non-empty program whose lowercased text contains `eval` or
`exec` fails Strict validation with a security error, and passes Permissive
validation with a non-empty warning list. -/
theorem denylist_strict_fails_permissive_warns :
    ∀ source : String, strLen source ≤ 1000000 → trimStr source ≠ "" →
      (containsSubstr (toLowerStr source) "eval" = true ∨
       containsSubstr (toLowerStr source) "exec" = true) →
      (∃ m, validateSourceCode source .strict = .error (.security m))
      ∧ (∃ r, validateSourceCode source .permissive = .ok r
          ∧ r.securityWarnings ≠ []) := by
  intro source hsize htrim hcontains
  have hhitS : scanPatternHits source (dangerousPatterns .strict) ≠ [] := by
    rcases hcontains with h | h
    · exact List.ne_nil_of_mem
        (mem_scanPatternHits source _ ("eval", "Code evaluation functions blocked")
          (by simp [dangerousPatterns]) h)
    · exact List.ne_nil_of_mem
        (mem_scanPatternHits source _ ("exec", "Code execution functions blocked")
          (by simp [dangerousPatterns]) h)
  have hhitP : scanPatternHits source (dangerousPatterns .permissive) ≠ [] := by
    rcases hcontains with h | h
    · exact List.ne_nil_of_mem
        (mem_scanPatternHits source _ ("eval", "Code evaluation detected")
          (by simp [dangerousPatterns]) h)
    · exact List.ne_nil_of_mem
        (mem_scanPatternHits source _ ("exec", "Code execution detected")
          (by simp [dangerousPatterns]) h)
  constructor
  · rcases hS : scanPatternHits source (dangerousPatterns .strict) with _ | ⟨h0, tl⟩
    · exact absurd hS hhitS
    · refine ⟨"Security violation: " ++ h0, ?_⟩
      unfold validateSourceCode
      rw [if_neg (by omega), if_neg htrim]
      simp only [hS]
  · rcases hP : scanPatternHits source (dangerousPatterns .permissive) with _ | ⟨h0, tl⟩
    · exact absurd hP hhitP
    · have hbase : validateSourceCode source .permissive
          = finishReport source .permissive (h0 :: tl) := by
        unfold validateSourceCode
        rw [if_neg (by omega), if_neg htrim]
        simp only [hP]
      cases hU : findUrl source with
      | none =>
        refine ⟨mkFinalReport source [] (h0 :: tl), ?_, by simp [mkFinalReport]⟩
        rw [hbase]
        unfold finishReport
        rw [hU]
      | some url =>
        refine ⟨mkFinalReport source [url] ((h0 :: tl) ++ ["External URL detected"]),
          ?_, by simp [mkFinalReport]⟩
        rw [hbase]
        unfold finishReport
        rw [hU]
        rfl

/-- C2 witness: the amended theorem applied at the concrete program
`eval`. -/
theorem denylist_strict_fails_permissive_warns_witness :
    (∃ m, validateSourceCode "eval" .strict = .error (.security m))
    ∧ (∃ r, validateSourceCode "eval" .permissive = .ok r
        ∧ r.securityWarnings ≠ []) :=
  denylist_strict_fails_permissive_warns "eval" (by decide) (by decide)
    (Or.inl (by decide))

/-- A fresh runtime with default budgets. -/
def rtEmpty : WasmRuntime :=
  { state := [], options := RuntimeOptions.default, memoryUsage := 0,
    executionLog := [] }

/-- A runtime with a tiny (10-byte) memory budget. -/
def rtTinyMem : WasmRuntime :=
  { state := [],
    options := { maxExecutionTime := 10000, maxMemory := 10, enableDebugging := false },
    memoryUsage := 0, executionLog := [] }

/-- An app whose initial state write (a 16-byte string) already exceeds the
10-byte budget, followed by a screen with one further state-updating button
action. -/
def appOverrun : App :=
  { name := "A", start_screen := "S",
    state := [{ name := "big", value := .string "0123456789abcdef" }],
    screens := [{ name := "S", state := [],
                  ui := [.button "b" (.updateState "b" "1")] }] }

set_option maxRecDepth 4000 in
unseal executeAction executeActions executeLoopIter in
/-- C3 counterexample: running `appOverrun` under a 10-byte budget, the very
first event logged is the memory-overrun error (the counter hits 16 > 10
while seeding `big`), yet execution continues: the button action still runs
(event index 4 is the `b` state update, and `b` is in the final state), and
the overrun is only turned into a failure at the final check after the
screen finished (`Memory limit exceeded: 117`).  So exceeding the budget
does *not* abort the remaining actions. -/
theorem memory_overrun_not_aborted_cex :
    (execute rtTinyMem appOverrun "S" 0).2
      = .error (.err "Memory limit exceeded: 117")
    ∧ (execute rtTinyMem appOverrun "S" 0).1.executionLog.head?
      = some (.error "Memory limit exceeded")
    ∧ (execute rtTinyMem appOverrun "S" 0).1.executionLog.get? 4
      = some (.stateUpdated "b" (.number 1))
    ∧ lookupAssoc (execute rtTinyMem appOverrun "S" 0).1.state "b"
      = some (.number 1) :=
  ⟨rfl, rfl, rfl, rfl⟩

/-- C3 amended: the memory counter only logs an error event when it crosses
the budget — it never alters the state or aborts — and both budgets are
checked once, after screen execution: a successful result implies the final
memory estimate was within the budget and the elapsed time within the time
budget (equivalently, an overrun observed at that point yields a failure).
-/
theorem budgets_checked_only_at_end :
    (∀ (rt : WasmRuntime) (bytes : Nat),
      (trackMemoryUsage rt bytes).state = rt.state
      ∧ (trackMemoryUsage rt bytes).memoryUsage = rt.memoryUsage + bytes)
    ∧ (∀ (rt : WasmRuntime) (app : App) (s : String) (t : Nat) (r : ExecutionResult),
      (execute rt app s t).2 = .ok r →
      (execute rt app s t).1.memoryUsage ≤ (execute rt app s t).1.options.maxMemory
      ∧ t ≤ (execute rt app s t).1.options.maxExecutionTime) := by
  constructor
  · intro rt bytes
    exact ⟨trackMemoryUsage_state rt bytes, trackMemoryUsage_memoryUsage rt bytes⟩
  · intro rt app s t r h
    rcases hE : execute rt app s t with ⟨rtf, res⟩
    rw [hE] at h
    simp only at h
    subst h
    unfold execute at hE
    revert hE
    split
    · intro hE; simp at hE
    · split
      · intro hE; simp at hE
      · split
        · intro hE; simp at hE
        · split
          · intro hE; simp at hE
          · split
            · intro hE; simp at hE
            · split_ifs with h1 h2
              · intro hE; simp at hE
              · intro hE; simp at hE
              · intro hE
                simp only [Prod.mk.injEq] at hE
                obtain ⟨hrt, -⟩ := hE
                subst hrt
                dsimp only
                exact ⟨by omega, by omega⟩

/-- An app that executes successfully (one empty screen). -/
def appOk : App :=
  { name := "A", start_screen := "S", state := [],
    screens := [{ name := "S", state := [], ui := [] }] }

/-- C3 witness: the final-check part of the amended theorem applied to a
concrete successful execution. -/
theorem budgets_checked_only_at_end_witness :
    (execute rtEmpty appOk "S" 0).1.memoryUsage
      ≤ (execute rtEmpty appOk "S" 0).1.options.maxMemory
    ∧ 0 ≤ (execute rtEmpty appOk "S" 0).1.options.maxExecutionTime :=
  budgets_checked_only_at_end.2 rtEmpty appOk "S" 0
    { success := true, finalState := [], executionTime := 0, memoryUsage := 0,
      events := [.screenLoaded "S"] } rfl

end Sprout
